import Mathlib

/-!
Verification of the Unit-of-Work-coordinated transactional persistence layer of
the repository (SQLAlchemyUnitOfWork, SQLAlchemyBaseRepositorio,
ExcepcionesMapper and the domain error taxonomy), shallowly embedded from:

* src/app/dominio/excepciones/dominio_excepciones.py
* src/app/infraestructura/persistencia/excepciones/persistencia_excepciones.py
* src/app/infraestructura/persistencia/unit_of_work.py
* src/app/infraestructura/persistencia/implementaciones_repositorios/sqlalchemy_base_repositorio.py
* src/app/infraestructura/persistencia/implementaciones_repositorios/usuario_repositorio_impl.py

Python exceptions are modelled as an inductive type; a function that can raise
returns `Except PyExc`. The SQLAlchemy async session is modelled by its
documented transactional semantics: flushed writes are visible only in the
session's pending view, `commit` publishes the pending view to the database,
`rollback` discards it.
-/

/-- Domain error taxonomy from dominio_excepciones.py. Each constructor is one
exception class; the fields are the arguments of its `__init__`. `base` stands
for a bare `DominioExcepcion(mensaje)` instance. -/
inductive DominioExcepcion where
  | base (mensaje : String)
  | persistenciaError (mensaje : String)
  | conexionDBError (mensaje : String)
  | timeoutDBError (operacion : String)
  | permisosDBError (mensaje : String)
  | claveForaneaError (entidad : String) (clave : String)
  | restriccionCheckError (campo : String) (valor : String) (restriccion : String)
  | emailYaRegistradoError (email : String)
  | usuarioNoEncontradoError (identificador : String)
  | rolNoEncontradoError (identificador : String)
deriving DecidableEq, Repr

/-- The `pgcode` attribute of the driver-level error object `exception.orig`:
the attribute may be missing (`absent`), present but holding Python `None`
(`noneVal`), or present with a SQLSTATE string. -/
inductive PgCode where
  | absent
  | noneVal
  | code (s : String)
deriving DecidableEq, Repr

/-- Python exceptions relevant to this layer. The first six constructors are
the SQLAlchemy exception classes the mapper dispatches on (`sqlalchemyOther`
is any other `SQLAlchemyError`); `asyncioTimeoutError` is `asyncio.TimeoutError`;
`domain` is any `DominioExcepcion`; the remaining constructors are builtin
exceptions (`NameError`, `TypeError`, `AttributeError`, `ValueError`) carrying
their message. `IntegrityError`, `OperationalError` and `DataError` carry the
`pgcode` state of their `orig` attribute together with `str(exception)`. -/
inductive PyExc where
  | integrityError (orig : PgCode) (msg : String)
  | operationalError (orig : PgCode) (msg : String)
  | sqlTimeoutError (msg : String)
  | asyncioTimeoutError (msg : String)
  | programmingError (msg : String)
  | dataError (orig : PgCode) (msg : String)
  | sqlalchemyOther (msg : String)
  | domain (d : DominioExcepcion)
  | nameError (msg : String)
  | typeError (msg : String)
  | attributeError (msg : String)
  | valueError (msg : String)
deriving DecidableEq, Repr

/-- Classification `isinstance(e, SQLAlchemyError)`: IntegrityError,
OperationalError, sqlalchemy TimeoutError, ProgrammingError, DataError and the
generic remainder are all subclasses of SQLAlchemyError; asyncio.TimeoutError,
domain exceptions and builtins are not. -/
def isSQLAlchemyError : PyExc → Bool
  | .integrityError _ _ => true
  | .operationalError _ _ => true
  | .sqlTimeoutError _ => true
  | .programmingError _ => true
  | .dataError _ _ => true
  | .sqlalchemyOther _ => true
  | _ => false

/-- Test `e.__module__.startswith("app.dominio")` used by the Unit of Work:
true exactly for the domain exceptions (their module is
app.dominio.excepciones.dominio_excepciones); SQLAlchemy exceptions live in
sqlalchemy.exc and builtins in builtins. -/
def isDomainModule : PyExc → Bool
  | .domain _ => true
  | _ => false

/-- Message reconstruction for a domain exception, following each class's
`__init__` in dominio_excepciones.py (used only for `str(exception)`). -/
def domMsg : DominioExcepcion → String
  | .base m => m
  | .persistenciaError m => m
  | .conexionDBError m => m
  | .timeoutDBError op => "La operación \x27" ++ op ++ "\x27 ha excedido el tiempo límite"
  | .permisosDBError m => m
  | .claveForaneaError e c =>
      "No existe la entidad \x27" ++ e ++ "\x27 con identificador \x27" ++ c ++ "\x27"
  | .restriccionCheckError campo valor r =>
      let m := "El valor \x27" ++ valor ++ "\x27 para el campo \x27" ++ campo ++
        "\x27 no cumple con las restricciones"
      if r = "" then m else m ++ ": " ++ r
  | .emailYaRegistradoError em =>
      "El correo electrónico \x27" ++ em ++ "\x27 ya está registrado."
  | .usuarioNoEncontradoError i =>
      "No se encontró ningún usuario con el identificador \x27" ++ i ++ "\x27."
  | .rolNoEncontradoError i =>
      "No se encontró ningún rol con el identificador \x27" ++ i ++ "\x27."

/-- Value of `str(exception)` for each modelled exception. -/
def excStr : PyExc → String
  | .integrityError _ m => m
  | .operationalError _ m => m
  | .sqlTimeoutError m => m
  | .asyncioTimeoutError m => m
  | .programmingError m => m
  | .dataError _ m => m
  | .sqlalchemyOther m => m
  | .domain d => domMsg d
  | .nameError m => m
  | .typeError m => m
  | .attributeError m => m
  | .valueError m => m

/-- Boolean test that the pattern `p` matches at the beginning of `s`. -/
def begMatch : List Char → List Char → Bool
  | [], _ => true
  | _ :: _, [] => false
  | a :: as, b :: bs => a == b && begMatch as bs

/-- Boolean test that the pattern occurs somewhere in the string (Python
`p in s` for plain substrings). -/
def hasSubL (p : List Char) : List Char → Bool
  | [] => begMatch p []
  | c :: rest => begMatch p (c :: rest) || hasSubL p rest

/-- Substring containment on `String`. -/
def hasSub (p s : String) : Bool := hasSubL p.data s.data

/-- Python `str.lower` restricted to the characters appearing here. -/
def lowerStr (s : String) : String := String.mk (s.data.map Char.toLower)

/-- Segment of a PostgreSQL error-message pattern. Every regex used by the
mapper is a strict alternation of literal text and one-or-more-characters
capture groups bounded by a delimiter character that the group excludes
(such as a capture of non-quote characters closed by a quote); `cap d`
consumes a maximal nonempty run of characters different from `d` followed by
`d` itself, which is exactly the greedy semantics of the original regex. -/
inductive Seg where
  | lit (cs : List Char)
  | cap (delim : Char)

/-- Anchored match of a segment list at the head of `s`; returns the capture
groups in order. -/
def matchSegs : List Seg → List Char → Option (List (List Char))
  | [], _ => some []
  | .lit l :: rest, s =>
      if begMatch l s then matchSegs rest (s.drop l.length) else none
  | .cap d :: rest, s =>
      let grab := s.takeWhile (fun c => !(c == d))
      if grab.isEmpty then none
      else
        match s.drop grab.length with
        | c :: s2 => if c == d then (matchSegs rest s2).map (grab :: ·) else none
        | [] => none

/-- Unanchored leftmost search of a pattern, as `re.search`. -/
def searchSegs (p : List Seg) : List Char → Option (List (List Char))
  | [] => matchSegs p []
  | c :: rest =>
      match matchSegs p (c :: rest) with
      | some caps => some caps
      | none => searchSegs p rest

/-- Search on `String`, returning the capture groups as strings. -/
def searchCaps (p : List Seg) (s : String) : Option (List String) :=
  (searchSegs p s.data).map (fun l => l.map String.mk)

/-- First capture group of a search, as `match.group(1)`. -/
def cap1 (p : List Seg) (s : String) : Option String :=
  (searchCaps p s).bind List.head?

/-- Pattern for `duplicate key value violates unique constraint "([^"]+)"`. -/
def PATRON_UNIQUE_VIOLATION : List Seg :=
  [.lit "duplicate key value violates unique constraint \"".data, .cap '"']

/-- Pattern for `Key \(email\)=\(([^)]+)\)`. -/
def PATRON_EMAIL_COLUMN : List Seg :=
  [.lit "Key (email)=(".data, .cap ')']

/-- Pattern for `violates foreign key constraint "([^"]+)"`. -/
def PATRON_FOREIGN_KEY_VIOLATION : List Seg :=
  [.lit "violates foreign key constraint \"".data, .cap '"']

/-- Pattern for `Key \(([^)]+)\)=\(([^)]+)\) is not present in table "([^"]+)"`. -/
def PATRON_FOREIGN_KEY_DETAILS : List Seg :=
  [.lit "Key (".data, .cap ')', .lit "=(".data, .cap ')',
   .lit " is not present in table \"".data, .cap '"']

/-- Pattern for `violates check constraint "([^"]+)"`. -/
def PATRON_CHECK_CONSTRAINT : List Seg :=
  [.lit "violates check constraint \"".data, .cap '"']

/-- Pattern for `Key \(([^)]+)\)=\(([^)]+)\)`. -/
def PATRON_CHECK_DETAILS : List Seg :=
  [.lit "Key (".data, .cap ')', .lit "=(".data, .cap ')']

/-- Anchored match of PATRON_CONNECTION_ERROR, the alternation
`(connection|network|server|host)\s+(error|refused|closed|unavailable)`
(applied to an already lowercased message, as re.IGNORECASE). -/
def connPairAt (s : List Char) : Bool :=
  ["connection", "network", "server", "host"].any fun w1 =>
    begMatch w1.data s &&
      (let rest := s.drop w1.length
       let ws := rest.takeWhile Char.isWhitespace
       !ws.isEmpty &&
         ["error", "refused", "closed", "unavailable"].any fun w2 =>
           begMatch w2.data (rest.drop ws.length))

/-- Unanchored search for PATRON_CONNECTION_ERROR. -/
def occursConn : List Char → Bool
  | [] => connPairAt []
  | c :: rest => connPairAt (c :: rest) || occursConn rest

/-- Test `"email" in constraint_name.lower() or "correo" in constraint_name.lower()`. -/
def emailish (cn : String) : Bool :=
  hasSub "email" (lowerStr cn) || hasSub "correo" (lowerStr cn)

/-- Python `table.replace("_", " ").title()` used to turn a table name into an
entity name; `title` uppercases a letter that follows a non-letter and
lowercases the rest. -/
def tituloTabla (t : String) : String :=
  String.mk (go (t.data.map fun c => if c == '_' then ' ' else c) false)
where
  go : List Char → Bool → List Char
    | [], _ => []
    | c :: cs, prevAlpha =>
        (if c.isAlpha then (if prevAlpha then c.toLower else c.toUpper) else c)
          :: go cs c.isAlpha

/-- Check-constraint section of the integrity fallback (lines 184-196): try
PATRON_CHECK_CONSTRAINT and PATRON_CHECK_DETAILS, else the generic
integrity-error message. -/
def integrityCheckSection (msg : String) : DominioExcepcion :=
  match cap1 PATRON_CHECK_CONSTRAINT msg with
  | some cn =>
      match searchCaps PATRON_CHECK_DETAILS msg with
      | some (campo :: valor :: _) => .restriccionCheckError campo valor cn
      | _ => .base ("Error de integridad de datos: " ++ msg)
  | none => .base ("Error de integridad de datos: " ++ msg)

/-- Foreign-key section of the integrity fallback (lines 170-182): a match of
PATRON_FOREIGN_KEY_VIOLATION only returns when the details pattern also
matches; otherwise control falls through to the check section. -/
def integrityFkSection (msg : String) : DominioExcepcion :=
  match cap1 PATRON_FOREIGN_KEY_VIOLATION msg with
  | some _ =>
      match searchCaps PATRON_FOREIGN_KEY_DETAILS msg with
      | some (_campo :: valor :: tabla :: _) =>
          .claveForaneaError (tituloTabla tabla) valor
      | _ => integrityCheckSection msg
  | none => integrityCheckSection msg

/-- Regex fallback of `_map_integrity_error` (lines 158-196), reached when no
pgcode is available or the available pgcode matched none of the handled codes.
A unique-violation match returns only on an email-like constraint name;
otherwise control falls through to the foreign-key section. -/
def integrityRegexFallback (msg : String) : DominioExcepcion :=
  match cap1 PATRON_UNIQUE_VIOLATION msg with
  | some cn =>
      if emailish cn then
        .emailYaRegistradoError ((cap1 PATRON_EMAIL_COLUMN msg).getD "desconocido")
      else integrityFkSection msg
  | none => integrityFkSection msg

/-- Embedding of `ExcepcionesMapper._map_integrity_error`. The structured
branch runs when `exception.orig` has a `pgcode` attribute; a `None` value
compares unequal to every handled code and falls through to the regex
fallback. In the pgcode-23503 branch without a key-details match the source
calls `ClaveForaneaError` with three arguments although its `__init__` accepts
two, which raises `TypeError`. -/
def mapIntegrityError (orig : PgCode) (msg : String) : Except PyExc DominioExcepcion :=
  let structured : Option (Except PyExc DominioExcepcion) :=
    match orig with
    | .absent => none
    | .noneVal => none
    | .code pg =>
        if pg = "23505" then
          let cn := (cap1 PATRON_UNIQUE_VIOLATION msg).getD "desconocido"
          if emailish cn then
            some (.ok (.emailYaRegistradoError
              ((cap1 PATRON_EMAIL_COLUMN msg).getD "desconocido")))
          else some (.ok (.base ("Violación de unicidad: " ++ cn)))
        else if pg = "23503" then
          match searchCaps PATRON_FOREIGN_KEY_DETAILS msg with
          | some (_campo :: valor :: tabla :: _) =>
              some (.ok (.claveForaneaError (tituloTabla tabla) valor))
          | _ =>
              some (.error (.typeError
                "ClaveForaneaError.__init__() takes 3 positional arguments but 4 were given"))
        else if pg = "23514" then
          let cn := (cap1 PATRON_CHECK_CONSTRAINT msg).getD "desconocido"
          match searchCaps PATRON_CHECK_DETAILS msg with
          | some (campo :: valor :: _) =>
              some (.ok (.restriccionCheckError campo valor cn))
          | _ =>
              some (.ok (.restriccionCheckError "valor proporcionado"
                "no cumple con las restricciones"
                ("Violación de restricción de verificación: " ++ cn)))
        else none
  match structured with
  | some r => r
  | none => .ok (integrityRegexFallback msg)

/-- Embedding of `ExcepcionesMapper._map_operational_error`. With a `pgcode`
attribute holding `None` the source calls `None.startswith`, which raises
`AttributeError`; with a code starting `53` it references the name
`RecursosDBError`, which is neither imported nor defined, raising `NameError`.
An available code matching no handled group falls through to the regex
fallback. -/
def mapOperationalError (orig : PgCode) (msg : String) : Except PyExc DominioExcepcion :=
  let structured : Option (Except PyExc DominioExcepcion) :=
    match orig with
    | .absent => none
    | .noneVal =>
        some (.error (.attributeError
          "\x27NoneType\x27 object has no attribute \x27startswith\x27"))
    | .code pg =>
        if begMatch "08".data pg.data then
          some (.ok (.conexionDBError ("Error de conexión a la base de datos: " ++ msg)))
        else if begMatch "42".data pg.data then
          if pg = "42501" then
            some (.ok (.permisosDBError
              ("Privilegios insuficientes para realizar la operación: " ++ msg)))
          else some (.ok (.persistenciaError ("Error de sintaxis SQL: " ++ msg)))
        else if begMatch "53".data pg.data then
          some (.error (.nameError "name \x27RecursosDBError\x27 is not defined"))
        else if begMatch "57".data pg.data then
          some (.ok (.persistenciaError ("Error de operador en la base de datos: " ++ msg)))
        else if begMatch "58".data pg.data then
          some (.ok (.persistenciaError ("Error de sistema en la base de datos: " ++ msg)))
        else none
  match structured with
  | some r => r
  | none =>
    if occursConn (lowerStr msg).data then
      .ok (.conexionDBError ("Error de conexión a la base de datos: " ++ msg))
    else if hasSub "permission denied" (lowerStr msg) then
      .ok (.permisosDBError ("Error de permisos en la base de datos: " ++ msg))
    else .ok (.persistenciaError ("Error operacional en la base de datos: " ++ msg))

/-- Embedding of `ExcepcionesMapper._map_timeout_error`. -/
def mapTimeoutError (msg : String) : DominioExcepcion :=
  let low := lowerStr msg
  let operacion :=
    if hasSub "query" low then "consulta"
    else if hasSub "update" low then "actualización"
    else if hasSub "insert" low then "inserción"
    else if hasSub "delete" low then "eliminación"
    else "desconocida"
  .timeoutDBError operacion

/-- Embedding of `ExcepcionesMapper._map_programming_error`. -/
def mapProgrammingError (msg : String) : DominioExcepcion :=
  if hasSub "permission denied" (lowerStr msg) then
    .permisosDBError ("Error de permisos en la base de datos: " ++ msg)
  else .persistenciaError ("Error de programación SQL: " ++ msg)

/-- Embedding of `ExcepcionesMapper._map_data_error`; a `None` pgcode compares
unequal to every handled code and falls through to the generic message. -/
def mapDataError (orig : PgCode) (msg : String) : DominioExcepcion :=
  let structured : Option DominioExcepcion :=
    match orig with
    | .absent => none
    | .noneVal => none
    | .code pg =>
        if pg = "22001" then
          some (.base ("Error de datos: El valor es demasiado largo para el campo. Detalles: " ++ msg))
        else if pg = "22003" then
          some (.base ("Error de datos: El valor numérico está fuera de rango. Detalles: " ++ msg))
        else if pg = "22007" then
          some (.base ("Error de datos: Formato de fecha/hora inválido. Detalles: " ++ msg))
        else if pg = "22P02" then
          some (.base ("Error de datos: Formato de texto inválido para el tipo de datos. Detalles: " ++ msg))
        else none
  structured.getD
    (.base ("Error de datos: El valor proporcionado no es válido para este campo. Detalles: " ++ msg))

/-- Embedding of `ExcepcionesMapper.map_exception`: dispatch on the exception
class in the order of the isinstance chain; constructors being disjoint makes
the order immaterial here. A `.error` result means the mapper itself raised
that exception instead of returning. -/
def map_exception : PyExc → Except PyExc DominioExcepcion
  | .integrityError o m => mapIntegrityError o m
  | .operationalError o m => mapOperationalError o m
  | .sqlTimeoutError m => .ok (mapTimeoutError m)
  | .asyncioTimeoutError m => .ok (mapTimeoutError m)
  | .programmingError m => .ok (mapProgrammingError m)
  | .dataError o m => .ok (mapDataError o m)
  | .sqlalchemyOther m => .ok (.persistenciaError ("Error de base de datos: " ++ m))
  | .domain d => .ok d
  | e => .ok (.base ("Error inesperado: " ++ excStr e))

/-- Embedding of `ExcepcionesMapper.wrap_exception`: calls `map_exception` and
attaches diagnostic notes (original class name, message and formatted
traceback) to the resulting domain exception; the notes do not alter the
classification and are not modelled. -/
def wrap_exception (e : PyExc) : Except PyExc DominioExcepcion :=
  map_exception e

/-- ORM record for the usuarios table (modelos_orm.py); the UUID primary key is
modelled as a Nat and the storage-managed timestamps as Nats. -/
structure UsuarioORM where
  id : Nat
  email : String
  hashed_pwd : String
  full_name : String
  is_active : Bool
  created_at : Nat
  updated_at : Nat
deriving DecidableEq, Repr

/-- Domain entity Usuario as consumed by the repository conversion; `id` is
optional because a not-yet-persisted entity carries no identifier. -/
structure Usuario where
  id : Option Nat
  email : String
  hashed_pwd : String
  full_name : String
  is_active : Bool
  created_at : Nat
  updated_at : Nat
deriving DecidableEq, Repr

/-- Embedding of `UsuarioRepositorioImpl._to_domain_entity` extended to the
`None` argument it receives from `get_by_id` on a missing record (a falsy ORM
instance yields `None`). -/
def usuarioOrmToDomain : Option UsuarioORM → Option Usuario
  | none => none
  | some o => some ⟨some o.id, o.email, o.hashed_pwd, o.full_name, o.is_active,
      o.created_at, o.updated_at⟩

/-- Raise-site embedding of the repository `except` clauses: a SQLAlchemy
error is wrapped through `ExcepcionesMapper.wrap_exception` and the resulting
domain exception (or a crash of the mapper itself) is raised; any other
exception propagates unchanged because the clauses only catch
`SQLAlchemyError` and its subclasses. -/
def raiseWrapped (e : PyExc) : PyExc :=
  if isSQLAlchemyError e then
    match wrap_exception e with
    | .ok d => .domain d
    | .error c => c
  else e

/-- Embedding of `SQLAlchemyBaseRepositorio.get_by_id`: the session fetch
either yields an optional ORM record or raises; a missing record is converted
by `_to_domain_entity(None)`, which returns the absent value. -/
def get_by_id {Orm Ent : Type} (toDom : Option Orm → Option Ent)
    (sessGet : Except PyExc (Option Orm)) : Except PyExc (Option Ent) :=
  match sessGet with
  | .ok o => .ok (toDom o)
  | .error e => .error (raiseWrapped e)

/-- Row of a generic query result: an association of column names to nullable
values; a column not present in the association is NULL. -/
abbrev Row := List (String × Option String)

/-- Value of a column in a row. -/
def getCol (r : Row) (k : String) : Option String :=
  match r.find? (fun p => p.1 == k) with
  | some p => p.2
  | none => none

/-- SQLAlchemy equality filter `getattr(model, key) == value`: comparison with
a non-null value is SQL equality (NULL never equals a value); comparison with
`None` renders `IS NULL`. -/
def rowColEq (r : Row) (k : String) (v : Option String) : Bool :=
  match v with
  | none => (getCol r k).isNone
  | some x => getCol r k == some x

/-- Filter conjunct built by `_get_one_by_filter`, which applies every
criteria entry, including ones whose value is None. -/
def onePred (r : Row) (p : String × Option String) : Bool :=
  rowColEq r p.1 p.2

/-- Filter conjunct built by `_get_many_by_filter`, which skips entries whose
value is None (`if value is not None`). -/
def manyPred (r : Row) (p : String × Option String) : Bool :=
  match p.2 with
  | none => true
  | some x => rowColEq r p.1 (some x)

/-- Embedding of `Result.scalar_one_or_none`: `None` on zero rows, the row on
exactly one, and a raised `MultipleResultsFound` (a SQLAlchemy error) on more. -/
def scalarOneOrNone (l : List Row) : Except PyExc (Option Row) :=
  match l with
  | [] => .ok none
  | [r] => .ok (some r)
  | _ => .error (.sqlalchemyOther "Multiple rows were found when one or none was required")

/-- Embedding of `SQLAlchemyBaseRepositorio._get_one_by_filter` over a table
of rows; `execErr` injects a failure of `session.execute`, and every raised
SQLAlchemy error is wrapped before propagating. -/
def get_one_by_filter {Ent : Type} (toDom : Row → Option Ent)
    (criteria : List (String × Option String)) (rows : List Row)
    (execErr : Option PyExc) : Except PyExc (Option Ent) :=
  match execErr with
  | some e => .error (raiseWrapped e)
  | none =>
      match scalarOneOrNone (rows.filter (fun r => criteria.all (onePred r))) with
      | .ok none => .ok none
      | .ok (some r) => .ok (toDom r)
      | .error e => .error (raiseWrapped e)

/-- Embedding of `SQLAlchemyBaseRepositorio._get_many_by_filter`: conjunction
of the non-None criteria, offset/limit pagination, and conversion that drops
records failing entity reconstruction. -/
def get_many_by_filter {Ent : Type} (toDom : Row → Option Ent)
    (criteria : List (String × Option String)) (skip limit : Nat)
    (rows : List Row) (execErr : Option PyExc) : Except PyExc (List Ent) :=
  match execErr with
  | some e => .error (raiseWrapped e)
  | none =>
      .ok ((((rows.filter (fun r => criteria.all (manyPred r))).drop skip).take limit).filterMap toDom)

/-- Store of persisted usuario records keyed by their primary identifier. -/
abbrev Store := List UsuarioORM

/-- Embedding of `UsuarioRepositorioImpl._populate_orm_from_domain`: copies
email, hashed_pwd, full_name and is_active; id, created_at and updated_at are
storage-managed and left untouched. -/
def populateOrm (o : UsuarioORM) (e : Usuario) : UsuarioORM :=
  { o with email := e.email, hashed_pwd := e.hashed_pwd,
           full_name := e.full_name, is_active := e.is_active }

/-- Primary key generated by the storage layer at flush time for a freshly
added record, modelled as one more than the largest existing key. -/
def freshId (pending : Store) : Nat :=
  (pending.map (fun o => o.id)).foldr Nat.max 0 + 1

/-- Freshly constructed `UsuarioORM()` before population; the key and the
storage-managed timestamps are filled in at flush, modelled here directly. -/
def newUsuarioOrm (i : Nat) : UsuarioORM :=
  ⟨i, "", "", "", false, 0, 0⟩

/-- Effect of `SQLAlchemyBaseRepositorio.save` on the session's pending view:
an entity with an identifier resolving to an existing record updates it in
place, otherwise a new record is added; the subsequent flush makes the write
visible in the pending view only — the method never commits. -/
def saveToStore (pending : Store) (e : Usuario) : Store :=
  match e.id with
  | some i =>
      if pending.any (fun o => o.id == i) then
        pending.map (fun o => if o.id == i then populateOrm o e else o)
      else pending ++ [populateOrm (newUsuarioOrm (freshId pending)) e]
  | none => pending ++ [populateOrm (newUsuarioOrm (freshId pending)) e]

/-- Effect of `SQLAlchemyBaseRepositorio.delete` on the session's pending
view: the record is removed and flushed if present, and the call is a silent
no-op otherwise; the method never commits. -/
def deleteFromStore (pending : Store) (i : Nat) : Store :=
  if pending.any (fun o => o.id == i) then
    pending.filter (fun o => !(o.id == i))
  else pending

/-- One repository write issued inside a Work Scope body: a `save` or a
`delete`, with `flushErr` injecting a failure of the underlying flush (the
way the storage driver makes the Nth operation raise). -/
inductive WriteOp where
  | save (e : Usuario) (flushErr : Option PyExc)
  | del (i : Nat) (flushErr : Option PyExc)

/-- Embedding of one repository write on the pending view: on a flush failure
the write is not applied and the error is raised through the repository's
except clauses (wrapped when it is a SQLAlchemy error). -/
def applyOp : WriteOp → Store → Except PyExc Store
  | .save e fe, pending =>
      match fe with
      | some err => .error (raiseWrapped err)
      | none => .ok (saveToStore pending e)
  | .del i fe, pending =>
      match fe with
      | some err => .error (raiseWrapped err)
      | none => .ok (deleteFromStore pending i)

/-- Sequential execution of the scope body's writes; an error carries the
exception escaping the body together with the pending view at that moment. -/
def runBody : List WriteOp → Store → Except (PyExc × Store) Store
  | [], p => .ok p
  | op :: ops, p =>
      match applyOp op p with
      | .ok p2 => runBody ops p2
      | .error e => .error (e, p)

/-- Decidable success test for an Except value. -/
def isOkE {ε α : Type} : Except ε α → Bool
  | .ok _ => true
  | .error _ => false

/-- State of a SQLAlchemyUnitOfWork instance: the optional session (carrying
the transaction's pending view of the store) and the three repository
references initialized on enter and cleared on exit. -/
structure UoW (σ : Type) where
  session : Option σ
  usuarios : Option Unit
  roles : Option Unit
  contactos : Option Unit
deriving DecidableEq, Repr

/-- Unit of Work whose session is closed and whose repository references are
cleared, as `__init__` leaves it and as `__aexit__`'s finally block resets it. -/
def clearedUoW {σ : Type} : UoW σ := ⟨none, none, none, none⟩

/-- Embedding of `SQLAlchemyUnitOfWork.__aenter__`: acquires a fresh session
from the factory — its pending view starts as the committed database — and
binds the three repositories to it. -/
def aenter {σ : Type} (db : σ) (u : UoW σ) : UoW σ :=
  { u with session := some db, usuarios := some (), roles := some (),
           contactos := some () }

/-- Failure injection for `__aexit__`: the exception `session.commit()` or
`session.rollback()` raises, if any. -/
structure ExitEnv where
  commitErr : Option PyExc
  rollbackErr : Option PyExc

/-- Outcome of `__aexit__`: either a boolean return (False everywhere in the
source, so the body's exception — if any — propagates unchanged), or an
exception raised by the exit itself, with `context` listing the previously
active exceptions chained behind it (most recent first). -/
inductive ExitOutcome where
  | ret (suppress : Bool)
  | raised (err : PyExc) (context : List PyExc)
deriving DecidableEq, Repr

/-- Result of `__aexit__`: its outcome, the committed database afterwards and
the Unit of Work state afterwards. -/
structure AexitResult (σ : Type) where
  outcome : ExitOutcome
  db : σ
  uow : UoW σ

/-- Embedding of the handler at lines 125-130 of unit_of_work.py: an exception
`e` escaping commit, rollback or the mapping code is re-raised unchanged when
it is already a domain exception, and otherwise wrapped through
`ExcepcionesMapper.wrap_exception` and raised from `e` (a crash of the mapper
inside this handler propagates uncaught). `ctx` is the chain of exceptions
already being handled. -/
def exceptClause (e : PyExc) (ctx : List PyExc) : ExitOutcome :=
  if isDomainModule e then .raised e ctx
  else
    match wrap_exception e with
    | .ok d => .raised (.domain d) (e :: ctx)
    | .error c => .raised c (e :: ctx)

/-- Embedding of `SQLAlchemyUnitOfWork.__aexit__`. With no session the method
returns False before the try block. Otherwise, on a body exception it rolls
back first: a rollback failure is routed through the handler and takes
precedence; a domain-module body exception then propagates unchanged (return
False); any other body exception is wrapped and raised from the original —
the raise happens inside the try block, is caught by the handler and
re-raised unchanged since the wrapped exception is domain-module (and if the
wrapping itself crashed inside the try block, the handler wraps that crash
into the generic unexpected-error domain exception). With no body exception
the session is committed, publishing the pending view to the database; a
commit failure is routed through the handler. The finally block always closes
the session and clears the session and repository references. -/
def aexit {σ : Type} (env : ExitEnv) (db : σ) (u : UoW σ) (excVal : Option PyExc) :
    AexitResult σ :=
  match u.session with
  | none => ⟨.ret false, db, u⟩
  | some pending =>
      match excVal with
      | some exc =>
          let out : ExitOutcome :=
            match env.rollbackErr with
            | some erb => exceptClause erb [exc]
            | none =>
                if isDomainModule exc then .ret false
                else
                  match wrap_exception exc with
                  | .ok d => .raised (.domain d) [exc]
                  | .error c => exceptClause c [exc]
          ⟨out, db, clearedUoW⟩
      | none =>
          match env.commitErr with
          | some ec => ⟨exceptClause ec [], db, clearedUoW⟩
          | none => ⟨.ret false, pending, clearedUoW⟩

/-- Result of running one whole Work Scope. -/
structure ScopeResult where
  outcome : ExitOutcome
  db : Store
  uow : UoW Store

/-- One full `async with SQLAlchemyUnitOfWork(...)` round trip over a body of
repository writes: enter (fresh session whose pending view is the committed
database), run the writes on the pending view, then exit with the body's
exception if one escaped. -/
def runScope (env : ExitEnv) (db : Store) (ops : List WriteOp) : ScopeResult :=
  let u0 := aenter db clearedUoW
  match runBody ops db with
  | .ok pEnd =>
      let r := aexit env db { u0 with session := some pEnd } none
      ⟨r.outcome, r.db, r.uow⟩
  | .error (e, pEnd) =>
      let r := aexit env db { u0 with session := some pEnd } (some e)
      ⟨r.outcome, r.db, r.uow⟩

/-- Store for the role-assignment repository operations: the existing user
ids, the existing role ids and the user-role association pairs, as visible
through the session (pending view). -/
structure RolesStore where
  usuarios : List Nat
  roles : List Nat
  userRoles : List (Nat × Nat)
deriving DecidableEq, Repr

/-- Embedding of `UsuarioRepositorioImpl.asignar_rol`: missing user or role
raises the corresponding domain not-found error; an association already
present leaves the state untouched without flushing; otherwise the pair is
appended and flushed. The returned Bool records whether a flush was issued. -/
def asignar_rol (st : RolesStore) (uid rid : Nat) : Except PyExc (RolesStore × Bool) :=
  if uid ∈ st.usuarios then
    if rid ∈ st.roles then
      if (uid, rid) ∈ st.userRoles then .ok (st, false)
      else .ok ({ st with userRoles := st.userRoles ++ [(uid, rid)] }, true)
    else .error (.domain (.rolNoEncontradoError ("Rol con ID " ++ toString rid ++ " no encontrado")))
  else .error (.domain (.usuarioNoEncontradoError ("Usuario con ID " ++ toString uid ++ " no encontrado")))

/-- C1: for every Work Scope and every sequence of repository writes
(save/delete) issued inside it whose last operation raises, none of the prior
writes are visible in the committed storage after the scope exits: the writes
only flush into the session's pending view and never commit, and the exit
path on an escaping exception rolls back instead of committing, for every
commit/rollback failure-injection environment — a full rollback, not a
partial one. -/
theorem uow_atomicity_full_rollback (env : ExitEnv) (db : Store) (ops : List WriteOp)
    (hfail : isOkE (runBody ops db) = false) :
    (runScope env db ops).db = db := by
  cases hb : runBody ops db with
  | ok p =>
      rw [hb] at hfail
      simp [isOkE] at hfail
  | error ep =>
      obtain ⟨e, p⟩ := ep
      simp [runScope, hb, aexit]

/-- Witness for C1 at a concrete scope: a successful save followed by a
delete whose flush raises; the committed store stays empty. -/
theorem uow_atomicity_full_rollback_witness :
    isOkE (runBody [.save ⟨none, "a@b.com", "h", "A", true, 0, 0⟩ none,
        .del 1 (some (.sqlalchemyOther "boom"))] ([] : Store)) = false ∧
    (runScope ⟨none, none⟩ [] [.save ⟨none, "a@b.com", "h", "A", true, 0, 0⟩ none,
        .del 1 (some (.sqlalchemyOther "boom"))]).db = [] :=
  ⟨rfl, uow_atomicity_full_rollback ⟨none, none⟩ []
    [.save ⟨none, "a@b.com", "h", "A", true, 0, 0⟩ none,
     .del 1 (some (.sqlalchemyOther "boom"))] rfl⟩

/-- C2 (evidence of the code bug): the mapper itself raises instead of
returning a domain error on the three inputs of the claim — an
OperationalError whose pgcode starts with 53 hits the undefined name
RecursosDBError (NameError), an IntegrityError with pgcode 23503 whose
message lacks the key-details pattern calls ClaveForaneaError with one
argument too many (TypeError), and an OperationalError whose pgcode attribute
holds None calls startswith on None (AttributeError); wrap_exception raises
the same way. -/
theorem mapper_crash_evidence :
    map_exception (.operationalError (.code "53100") "out of memory") =
      .error (.nameError "name \x27RecursosDBError\x27 is not defined") ∧
    map_exception (.integrityError (.code "23503")
        "insert on table \"contactos\" violates foreign key constraint \"fk_contactos_usuario\"") =
      .error (.typeError
        "ClaveForaneaError.__init__() takes 3 positional arguments but 4 were given") ∧
    map_exception (.operationalError .noneVal "could not connect to server") =
      .error (.attributeError "\x27NoneType\x27 object has no attribute \x27startswith\x27") ∧
    wrap_exception (.operationalError (.code "53100") "out of memory") =
      .error (.nameError "name \x27RecursosDBError\x27 is not defined") :=
  ⟨rfl, rfl, rfl, rfl⟩

/-- C3: after a Work Scope exit on any path — success, body exception with
rollback, or a commit/rollback failure injected through the environment — the
session is closed to absent and all three repository references are cleared. -/
theorem uow_aexit_cleanup {σ : Type} (env : ExitEnv) (db : σ) (u : UoW σ) (p : σ)
    (excVal : Option PyExc) (hs : u.session = some p) :
    (aexit env db u excVal).uow.session = none ∧
    (aexit env db u excVal).uow.usuarios = none ∧
    (aexit env db u excVal).uow.roles = none ∧
    (aexit env db u excVal).uow.contactos = none := by
  obtain ⟨s, r1, r2, r3⟩ := u
  obtain ⟨ce, re⟩ := env
  cases hs
  cases excVal <;> cases ce <;> exact ⟨rfl, rfl, rfl, rfl⟩

/-- Witness for C3 on the successful-commit path of an entered scope. -/
theorem uow_aexit_cleanup_witness :
    (aenter ([] : Store) clearedUoW).session = some [] ∧
    ((aexit ⟨none, none⟩ [] (aenter ([] : Store) clearedUoW) none).uow.session = none ∧
     (aexit ⟨none, none⟩ [] (aenter ([] : Store) clearedUoW) none).uow.usuarios = none ∧
     (aexit ⟨none, none⟩ [] (aenter ([] : Store) clearedUoW) none).uow.roles = none ∧
     (aexit ⟨none, none⟩ [] (aenter ([] : Store) clearedUoW) none).uow.contactos = none) :=
  ⟨rfl, uow_aexit_cleanup ⟨none, none⟩ [] (aenter ([] : Store) clearedUoW) [] none rfl⟩

/-- C4: map_exception returns any domain error unchanged (idempotent
pass-through for every constructor of the taxonomy), and a domain error
escaping a Work Scope body propagates through the exit after a successful
rollback without re-wrapping — the exit returns False so the original
exception continues unchanged. -/
theorem mapper_domain_passthrough {σ : Type} (d : DominioExcepcion) (env : ExitEnv)
    (db : σ) (u : UoW σ) (p : σ) (hs : u.session = some p)
    (hrb : env.rollbackErr = none) :
    map_exception (.domain d) = .ok d ∧
    (aexit env db u (some (.domain d))).outcome = .ret false := by
  obtain ⟨s, r1, r2, r3⟩ := u
  obtain ⟨ce, re⟩ := env
  cases hs
  cases hrb
  exact ⟨rfl, rfl⟩

/-- Witness for C4 at a concrete domain error and entered scope. -/
theorem mapper_domain_passthrough_witness :
    map_exception (.domain (.base "x")) = .ok (.base "x") ∧
    (aexit ⟨none, none⟩ ([] : Store) (aenter [] clearedUoW)
      (some (.domain (.base "x")))).outcome = .ret false :=
  mapper_domain_passthrough (.base "x") ⟨none, none⟩ [] (aenter [] clearedUoW) [] rfl rfl

/-- C5 (amended): when the body of a Work Scope raises and the rollback
issued on the exit path itself raises a storage-layer (non-domain) exception
on which the exception mapper succeeds, the error raised to the caller is the
wrapped rollback failure as a domain error; the original body exception
survives only as secondary chained context behind it. On a rollback exception
that crashes the mapper the crash escapes instead (see the counterexample). -/
theorem uow_rollback_failure_precedence {σ : Type} (env : ExitEnv) (db : σ)
    (u : UoW σ) (p : σ) (exc erb : PyExc) (d : DominioExcepcion)
    (hs : u.session = some p) (hrb : env.rollbackErr = some erb)
    (hnd : isDomainModule erb = false) (hw : wrap_exception erb = .ok d) :
    (aexit env db u (some exc)).outcome = .raised (.domain d) [erb, exc] := by
  obtain ⟨s, r1, r2, r3⟩ := u
  obtain ⟨ce, re⟩ := env
  cases hs
  cases hrb
  show exceptClause erb [exc] = _
  simp [exceptClause, hnd, hw]

/-- Witness for C5: a ValueError escapes the body and the rollback raises a
SQLAlchemy error; the caller sees the wrapped rollback failure. -/
theorem uow_rollback_failure_precedence_witness :
    (aexit ⟨none, some (.sqlalchemyOther "rb")⟩ ([] : Store) (aenter [] clearedUoW)
      (some (.valueError "boom"))).outcome =
      .raised (.domain (.persistenciaError "Error de base de datos: rb"))
        [.sqlalchemyOther "rb", .valueError "boom"] :=
  uow_rollback_failure_precedence ⟨none, some (.sqlalchemyOther "rb")⟩ []
    (aenter [] clearedUoW) [] (.valueError "boom") (.sqlalchemyOther "rb")
    (.persistenciaError "Error de base de datos: rb") rfl rfl rfl rfl

/-- C6 (amended): in the many-result paginated variant, a filter field whose
value is null is skipped, so the query returns the same result as the same
query with that field omitted entirely, for every criteria split, pagination
window, table and execute outcome; the single-result variant does not skip
such fields (see the counterexample). -/
theorem get_many_filter_null_skip {Ent : Type} (toDom : Row → Option Ent)
    (pre post : List (String × Option String)) (k : String) (skip limit : Nat)
    (rows : List Row) (execErr : Option PyExc) :
    get_many_by_filter toDom (pre ++ (k, none) :: post) skip limit rows execErr =
    get_many_by_filter toDom (pre ++ post) skip limit rows execErr := by
  cases execErr with
  | some e => rfl
  | none =>
      have hf : (fun r => (pre ++ (k, none) :: post).all (manyPred r)) =
          (fun r => (pre ++ post).all (manyPred r)) := by
        funext r
        simp [List.all_append, List.all_cons, manyPred]
      simp only [get_many_by_filter, hf]

/-- Counterexample for C6 as stated: on a table whose single row has a
non-null email, the single-result variant with the null-valued email field
returns absent while the same query with the field omitted returns the row —
the two differ, so the absent-filter equivalence fails for
`_get_one_by_filter`. -/
theorem get_one_filter_null_counterexample :
    get_one_by_filter (fun r => some r) [("email", none)]
      [[("email", some "a@b.com")]] none = .ok none ∧
    get_one_by_filter (fun r => some r) ([] : List (String × Option String))
      [[("email", some "a@b.com")]] none = .ok (some [("email", some "a@b.com")]) ∧
    (Except.ok (none : Option Row) : Except PyExc (Option Row)) ≠
      .ok (some [("email", some "a@b.com")]) :=
  ⟨rfl, rfl, fun h => Option.noConfusion (Except.ok.inj h)⟩

/-- C7 (amended): for every integrity-error message in which the
unique-violation pattern matches with a constraint name containing email or
correo and the email key-details pattern captures the address, map_exception
returns the conflict error EmailYaRegistradoError carrying exactly that
address, both on the structured path with code 23505 and on the
message-pattern fallback path without a structured code. -/
theorem conflict_extraction_amended (msg cn em : String)
    (h1 : cap1 PATRON_UNIQUE_VIOLATION msg = some cn)
    (h2 : emailish cn = true)
    (h3 : cap1 PATRON_EMAIL_COLUMN msg = some em) :
    map_exception (.integrityError (.code "23505") msg) =
      .ok (.emailYaRegistradoError em) ∧
    map_exception (.integrityError .absent msg) =
      .ok (.emailYaRegistradoError em) := by
  constructor
  · show mapIntegrityError (.code "23505") msg = _
    simp [mapIntegrityError, h1, h2, h3]
  · show mapIntegrityError .absent msg = _
    simp [mapIntegrityError, integrityRegexFallback, h1, h2, h3]

/-- Witness for C7 (amended) at a native unique-violation message with the
constraint usuarios_email_key and key (email)=(x@y.com). -/
theorem conflict_extraction_amended_witness :
    (cap1 PATRON_UNIQUE_VIOLATION "duplicate key value violates unique constraint \"usuarios_email_key\" DETAIL: Key (email)=(x@y.com) already exists." = some "usuarios_email_key" ∧
     emailish "usuarios_email_key" = true ∧
     cap1 PATRON_EMAIL_COLUMN "duplicate key value violates unique constraint \"usuarios_email_key\" DETAIL: Key (email)=(x@y.com) already exists." = some "x@y.com") ∧
    map_exception (.integrityError (.code "23505")
        "duplicate key value violates unique constraint \"usuarios_email_key\" DETAIL: Key (email)=(x@y.com) already exists.") =
      .ok (.emailYaRegistradoError "x@y.com") ∧
    map_exception (.integrityError .absent
        "duplicate key value violates unique constraint \"usuarios_email_key\" DETAIL: Key (email)=(x@y.com) already exists.") =
      .ok (.emailYaRegistradoError "x@y.com") :=
  ⟨⟨rfl, rfl, rfl⟩,
   conflict_extraction_amended
     "duplicate key value violates unique constraint \"usuarios_email_key\" DETAIL: Key (email)=(x@y.com) already exists."
     "usuarios_email_key" "x@y.com" rfl rfl rfl⟩

/-- Counterexample for C7 as stated: a unique-violation message containing
Key (email)=(x@y.com) but whose constraint name uq_usr_mail mentions neither
email nor correo maps to a generic unicity (structured path) or generic
integrity (fallback path) error, not to the conflict error with payload
x@y.com. -/
theorem conflict_extraction_counterexample :
    map_exception (.integrityError (.code "23505")
        "duplicate key value violates unique constraint \"uq_usr_mail\" DETAIL: Key (email)=(x@y.com) already exists.") =
      .ok (.base "Violación de unicidad: uq_usr_mail") ∧
    map_exception (.integrityError .absent
        "duplicate key value violates unique constraint \"uq_usr_mail\" DETAIL: Key (email)=(x@y.com) already exists.") =
      .ok (.base "Error de integridad de datos: duplicate key value violates unique constraint \"uq_usr_mail\" DETAIL: Key (email)=(x@y.com) already exists.") ∧
    (Except.ok (DominioExcepcion.base "Violación de unicidad: uq_usr_mail") :
        Except PyExc DominioExcepcion) ≠
      .ok (.emailYaRegistradoError "x@y.com") :=
  ⟨rfl, rfl, fun h => DominioExcepcion.noConfusion (Except.ok.inj h)⟩

/-- C8 (amended): get_by_id returns the explicit absent value on a missing
identifier (never a not-found error), converts the fetched record to the
domain entity on success, and wraps a storage-layer exception raised during
the fetch into a domain error before re-raising whenever the exception
mapper succeeds on it; on a fetch exception that crashes the mapper the
crash escapes instead of a domain error (see the counterexample). -/
theorem get_by_id_contract (r : UsuarioORM) (e : PyExc) (d : DominioExcepcion)
    (hsql : isSQLAlchemyError e = true) (hw : wrap_exception e = .ok d) :
    get_by_id usuarioOrmToDomain (.ok none) = .ok none ∧
    get_by_id usuarioOrmToDomain (.ok (some r)) =
      .ok (some ⟨some r.id, r.email, r.hashed_pwd, r.full_name, r.is_active,
        r.created_at, r.updated_at⟩) ∧
    get_by_id usuarioOrmToDomain (.error e) = .error (.domain d) := by
  refine ⟨rfl, rfl, ?_⟩
  simp [get_by_id, raiseWrapped, hsql, hw]

/-- Witness for C8 at a concrete record and a concrete SQLAlchemy failure. -/
theorem get_by_id_contract_witness :
    get_by_id usuarioOrmToDomain (.ok none) = .ok none ∧
    get_by_id usuarioOrmToDomain (.ok (some ⟨7, "a@b.com", "h", "A", true, 3, 4⟩)) =
      .ok (some ⟨some 7, "a@b.com", "h", "A", true, 3, 4⟩) ∧
    get_by_id usuarioOrmToDomain (.error (.sqlalchemyOther "boom")) =
      .error (.domain (.persistenciaError "Error de base de datos: boom")) :=
  get_by_id_contract ⟨7, "a@b.com", "h", "A", true, 3, 4⟩ (.sqlalchemyOther "boom")
    (.persistenciaError "Error de base de datos: boom") rfl rfl

/-- Counterexample for C9 as stated: a Work Scope instance that has entered
and exited has its session cleared, yet entering the same instance again
yields an active session — a new transaction is started, so entering a closed
instance is not prevented. -/
theorem uow_reenter_counterexample :
    (aexit ⟨none, none⟩ ([] : Store) (aenter [] clearedUoW) none).uow.session = none ∧
    (aenter ([] : Store)
      (aexit ⟨none, none⟩ ([] : Store) (aenter [] clearedUoW) none).uow).session = some [] ∧
    (some ([] : Store) ≠ (none : Option Store)) :=
  ⟨rfl, rfl, fun h => Option.noConfusion h⟩

/-- C9 (amended): after exit the instance's session and repositories are
cleared, so the closed instance cannot serve repository operations as-is;
but the instance is not single-use — entering it again, whatever its state,
acquires a fresh session from the factory and rebinds all three repositories,
starting a new transaction. -/
theorem uow_reenter_amended {σ : Type} (db2 : σ) (u : UoW σ) :
    (aenter db2 u).session = some db2 ∧ (aenter db2 u).usuarios = some () ∧
    (aenter db2 u).roles = some () ∧ (aenter db2 u).contactos = some () :=
  ⟨rfl, rfl, rfl, rfl⟩

/-- C10: assigning a role already present in the user's role set succeeds
without modifying the state and without flushing any write, and a second
assignment of a role just assigned returns the state of the first assignment
unchanged — role assignment is idempotent at the repository interface. -/
theorem asignar_rol_idempotent (st st1 : RolesStore) (uid rid : Nat) (fl : Bool)
    (hu : uid ∈ st.usuarios) (hr : rid ∈ st.roles)
    (h1 : asignar_rol st uid rid = .ok (st1, fl)) :
    ((uid, rid) ∈ st.userRoles → asignar_rol st uid rid = .ok (st, false)) ∧
    asignar_rol st1 uid rid = .ok (st1, false) := by
  constructor
  · intro hm
    unfold asignar_rol
    rw [if_pos hu, if_pos hr, if_pos hm]
  · unfold asignar_rol at h1
    rw [if_pos hu, if_pos hr] at h1
    by_cases hm : (uid, rid) ∈ st.userRoles
    · rw [if_pos hm] at h1
      injection h1 with h4
      injection h4 with h5 h6
      subst h5
      unfold asignar_rol
      rw [if_pos hu, if_pos hr, if_pos hm]
    · rw [if_neg hm] at h1
      injection h1 with h4
      injection h4 with h5 h6
      subst h5
      unfold asignar_rol
      rw [if_pos hu, if_pos hr, if_pos (show (uid, rid) ∈ st.userRoles ++ [(uid, rid)] by simp)]

/-- Witness for C10: user 1 with role 2 already assigned; re-assignment is a
flushless no-op. -/
theorem asignar_rol_idempotent_witness :
    ((1, 2) ∈ ([(1, 2)] : List (Nat × Nat)) →
      asignar_rol ⟨[1], [2], [(1, 2)]⟩ 1 2 = .ok (⟨[1], [2], [(1, 2)]⟩, false)) ∧
    asignar_rol ⟨[1], [2], [(1, 2)]⟩ 1 2 = .ok (⟨[1], [2], [(1, 2)]⟩, false) :=
  asignar_rol_idempotent ⟨[1], [2], [(1, 2)]⟩ ⟨[1], [2], [(1, 2)]⟩ 1 2 false
    (by decide) (by decide) rfl

/-- Counterexample for C5 as stated: a ValueError escapes the body and the
rollback raises an OperationalError whose pgcode attribute holds None — a
storage-layer exception covered by the claim — yet the error raised to the
caller is the bare AttributeError from the mapper's own crash, which is not a
domain error, instead of the claimed wrapped rollback failure. -/
theorem uow_rollback_failure_precedence_counterexample :
    (aexit ⟨none, some (.operationalError .noneVal "connection lost")⟩ ([] : Store)
      (aenter [] clearedUoW) (some (.valueError "boom"))).outcome =
      .raised (.attributeError "\x27NoneType\x27 object has no attribute \x27startswith\x27")
        [.operationalError .noneVal "connection lost", .valueError "boom"] ∧
    isSQLAlchemyError (.operationalError .noneVal "connection lost") = true ∧
    isDomainModule (.attributeError "\x27NoneType\x27 object has no attribute \x27startswith\x27") = false :=
  ⟨rfl, rfl, rfl⟩

/-- Counterexample for C8 as stated: a fetch failing with an OperationalError
whose pgcode attribute holds None — a storage-layer exception covered by the
claim — escapes get_by_id as the mapper's own AttributeError, which is not a
domain error, instead of the claimed wrapped domain error. -/
theorem get_by_id_contract_counterexample :
    get_by_id usuarioOrmToDomain (.error (.operationalError .noneVal "connection lost")) =
      .error (.attributeError "\x27NoneType\x27 object has no attribute \x27startswith\x27") ∧
    isSQLAlchemyError (.operationalError .noneVal "connection lost") = true ∧
    isDomainModule (.attributeError "\x27NoneType\x27 object has no attribute \x27startswith\x27") = false :=
  ⟨rfl, rfl, rfl⟩
